import Mathlib

/-!
Shallow embedding of the groove-extractor timing/style core
(`src/models/jamaican_styles.py`, `src/analyzers/jamaican_bpm.py`,
`src/analyzers/swing_calculator.py`, `src/classifiers/hihat_classifier.py`,
`src/models/timing_data.py`, `src/converters/timing_converter.py`),
with theorems checking the specification's claims about it.

Machine floats are modelled as exact rationals; Python's `round` (banker's
rounding), `int` truncation and float `%` are modelled explicitly.
-/

namespace Groove

/-- Python's `round` on a rational: round half to even (banker's rounding). -/
def pyRound (x : ℚ) : ℤ :=
  if x - ⌊x⌋ < 1/2 then ⌊x⌋
  else if 1/2 < x - ⌊x⌋ then ⌊x⌋ + 1
  else if ⌊x⌋ % 2 = 0 then ⌊x⌋ else ⌊x⌋ + 1

/-- Python's `int(...)` on a rational: truncation toward zero. -/
def pyInt (x : ℚ) : ℤ :=
  if 0 ≤ x then ⌊x⌋ else ⌈x⌉

/-- Python's float `%` operator: `a % b = a - b * floor (a / b)`
(result has the sign of `b`; exact on rationals). -/
def qmod (a b : ℚ) : ℚ := a - b * ⌊a / b⌋

/-- `JamaicanStyle` enum from `src/models/jamaican_styles.py`. -/
inductive JamaicanStyle where
  | ska
  | rocksteady
  | early_reggae
  | one_drop
  | rockers
  | steppers
  | dub
  | roots_reggae
  | unknown
  deriving DecidableEq, Repr

/-- `StyleBPMRange` dataclass (the `style` field is kept as the pair key,
as in the Python dict). -/
structure StyleBPMRange where
  min_bpm : ℚ
  max_bpm : ℚ
  typical_bpm : ℚ
  deriving DecidableEq, Repr

open JamaicanStyle in
/-- `STYLE_BPM_RANGES`, in Python dict insertion order. -/
def STYLE_BPM_RANGES : List (JamaicanStyle × StyleBPMRange) :=
  [ (ska,          ⟨110, 180, 145⟩),
    (rocksteady,   ⟨70,  95,  82⟩),
    (early_reggae, ⟨72,  100, 85⟩),
    (one_drop,     ⟨65,  90,  76⟩),
    (rockers,      ⟨70,  95,  80⟩),
    (steppers,     ⟨70,  92,  78⟩),
    (roots_reggae, ⟨65,  95,  78⟩),
    (dub,          ⟨60,  90,  75⟩) ]

/-- Confidence assigned to a matching range inside `suggest_style_from_bpm`:
`max(0.5, min(1.0, 1 - distance/max_distance))`, with the
`if max_distance > 0 else 1.0` guard of the source. -/
def rangeConfidence (r : StyleBPMRange) (bpm : ℚ) : ℚ :=
  let distance := |bpm - r.typical_bpm|
  let max_distance := (r.max_bpm - r.min_bpm) / 2
  let confidence := if max_distance > 0 then 1 - distance / max_distance else 1
  max (1/2) (min 1 confidence)

/-- One iteration of the loop in `suggest_style_from_bpm`. -/
def suggestStep (bpm : ℚ) (best : JamaicanStyle × ℚ)
    (sr : JamaicanStyle × StyleBPMRange) : JamaicanStyle × ℚ :=
  if sr.2.min_bpm ≤ bpm ∧ bpm ≤ sr.2.max_bpm then
    if best.2 < rangeConfidence sr.2 bpm then (sr.1, rangeConfidence sr.2 bpm) else best
  else best

/-- `suggest_style_from_bpm` from `src/models/jamaican_styles.py`. -/
def suggest_style_from_bpm (bpm : ℚ) : JamaicanStyle × ℚ :=
  STYLE_BPM_RANGES.foldl (suggestStep bpm) (JamaicanStyle.unknown, 0)

/-- The `reggae_styles` set of `suggest_bpm_correction`. -/
def reggae_styles : List JamaicanStyle :=
  [JamaicanStyle.one_drop, JamaicanStyle.rockers, JamaicanStyle.steppers,
   JamaicanStyle.roots_reggae, JamaicanStyle.dub]

/-- `suggest_bpm_correction` from `src/models/jamaican_styles.py`. -/
def suggest_bpm_correction (bpm : ℚ) (detected_style : JamaicanStyle) : ℚ × String :=
  if detected_style ∈ reggae_styles ∧ bpm > 130 then (bpm / 2, "halved")
  else if detected_style = JamaicanStyle.ska ∧ bpm < 60 then (bpm * 2, "doubled")
  else (bpm, "none")

/-- `BPMAnalysisResult` dataclass from `src/analyzers/jamaican_bpm.py`. -/
structure BPMAnalysisResult where
  bpm_detected : ℚ
  bpm_corrected : ℚ
  style_suggested : JamaicanStyle
  correction_type : String
  confidence : ℚ
  is_vintage : Bool
  tempo_drift : ℚ
  alternatives : List (JamaicanStyle × ℚ)

/-- `JamaicanBPMAnalyzer._get_style_alternatives`: matching styles with
clamped confidence (floor 0.3 here), sorted by confidence descending
(Python's stable sort). -/
def get_style_alternatives (bpm : ℚ) : List (JamaicanStyle × ℚ) :=
  let alternatives := STYLE_BPM_RANGES.filterMap (fun sr =>
    if sr.2.min_bpm ≤ bpm ∧ bpm ≤ sr.2.max_bpm then
      let distance := |bpm - sr.2.typical_bpm|
      let max_distance := (sr.2.max_bpm - sr.2.min_bpm) / 2
      let confidence := if max_distance > 0 then 1 - distance / max_distance else 1
      some (sr.1, max (3/10) (min 1 confidence))
    else none)
  alternatives.insertionSort (fun x y => y.2 ≤ x.2)

/-- `JamaicanBPMAnalyzer._get_beat_positions`: beat position 0-3 of each
time, `round((t / beat_duration) % 4) % 4` (the `tolerance` argument is
received but never used by the source). -/
def get_beat_positions (times : List ℚ) (bpm : ℚ) (tolerance : ℚ) : List ℤ :=
  let beat_duration := 60 / bpm
  let _ := tolerance
  times.map (fun t => pyRound (qmod (t / beat_duration) 4) % 4)

open JamaicanStyle in
/-- `JamaicanBPMAnalyzer.detect_style_from_pattern`. -/
def detect_style_from_pattern (kick_times snare_times : List ℚ) (bpm : ℚ) :
    JamaicanStyle :=
  let beat_duration := 60 / bpm
  let tolerance := beat_duration * (15/100)
  let analysis_duration := beat_duration * 16
  let kicks_in_range := kick_times.filter (fun t => t < analysis_duration)
  let snares_in_range := snare_times.filter (fun t => t < analysis_duration)
  if kicks_in_range.length < 2 then unknown
  else
    let kick_beats := get_beat_positions kicks_in_range bpm tolerance
    let snare_beats := get_beat_positions snares_in_range bpm tolerance
    let kick_on_1 := kick_beats.count 0
    let kick_on_2 := kick_beats.count 1
    let kick_on_3 := kick_beats.count 2
    let kick_on_4 := kick_beats.count 3
    let _snare_on_2 := snare_beats.count 1
    let _snare_on_3 := snare_beats.count 2
    let _snare_on_4 := snare_beats.count 3
    let total_kicks := kick_beats.length
    if total_kicks = 0 then unknown
    else
      let kicks_per_beat := [kick_on_1, kick_on_2, kick_on_3, kick_on_4]
      if kicks_per_beat.all (fun k => 0 < k) then steppers
      else
        let kick_3_ratio : ℚ := (kick_on_3 : ℚ) / (total_kicks : ℚ)
        if kick_3_ratio > 6/10 ∧ (kick_on_1 : ℚ) / (total_kicks : ℚ) < 2/10 then one_drop
        else
          let kick_1_3_ratio : ℚ := ((kick_on_1 : ℚ) + (kick_on_3 : ℚ)) / (total_kicks : ℚ)
          if kick_1_3_ratio > 7/10 then
            if bpm > 110 then ska else rockers
          else unknown

open JamaicanStyle in
/-- `JamaicanBPMAnalyzer.refine_bpm_with_pattern`. -/
def refine_bpm_with_pattern (bpm_detected : ℚ) (pattern_style : JamaicanStyle)
    (base_result : BPMAnalysisResult) : BPMAnalysisResult :=
  let state : ℚ × String × JamaicanStyle :=
    if bpm_detected > 130 then
      if pattern_style = ska then (bpm_detected, "none", ska)
      else if pattern_style = one_drop then (bpm_detected / 2, "halved", one_drop)
      else if pattern_style = steppers then (bpm_detected / 2, "halved", steppers)
      else if pattern_style = rockers then (bpm_detected / 2, "halved", rockers)
      else
        let corr := suggest_bpm_correction bpm_detected pattern_style
        (corr.1, corr.2, pattern_style)
    else (bpm_detected, "none", pattern_style)
  let bpm_corrected := state.1
  let correction_type := state.2.1
  let style_final := state.2.2
  let confidence := (suggest_style_from_bpm bpm_corrected).2
  let alternatives := get_style_alternatives bpm_corrected
  { bpm_detected := bpm_detected
    bpm_corrected := bpm_corrected
    style_suggested := style_final
    correction_type := correction_type
    confidence := confidence
    is_vintage := base_result.is_vintage
    tempo_drift := base_result.tempo_drift
    alternatives := alternatives }

open JamaicanStyle in
/-- The `slow_styles` set of `_apply_style_hint_correction`
(note: `rocksteady` is in it, `roots_reggae` is not). -/
def slow_styles : List JamaicanStyle := [one_drop, rockers, steppers, dub, rocksteady]

open JamaicanStyle in
/-- `JamaicanBPMAnalyzer._apply_style_hint_correction`. -/
def apply_style_hint_correction (result : BPMAnalysisResult)
    (style_hint : JamaicanStyle) : BPMAnalysisResult :=
  let bpm_detected := result.bpm_detected
  let state : ℚ × String :=
    if style_hint ∈ slow_styles ∧ bpm_detected > 130 then (bpm_detected / 2, "halved")
    else if style_hint = ska then (bpm_detected, "none")
    else (bpm_detected, "none")
  let bpm_corrected := state.1
  let correction_type := state.2
  let alternatives := get_style_alternatives bpm_corrected
  { bpm_detected := bpm_detected
    bpm_corrected := bpm_corrected
    style_suggested := style_hint
    correction_type := correction_type
    confidence := 9/10
    is_vintage := result.is_vintage
    tempo_drift := result.tempo_drift
    alternatives := alternatives }

/-- A concrete `BPMAnalysisResult` used as the base analysis result in
concrete evaluations. -/
def mkBase (bpm : ℚ) : BPMAnalysisResult :=
  { bpm_detected := bpm
    bpm_corrected := bpm
    style_suggested := JamaicanStyle.unknown
    correction_type := "none"
    confidence := 0
    is_vintage := false
    tempo_drift := 0
    alternatives := [] }

/-! ## Swing calculator (`src/analyzers/swing_calculator.py`) -/

/-- `SwingConfig` dataclass (defaults `min_intervals = 4`,
`tolerance_ms = 10.0`). -/
structure SwingConfig where
  min_intervals : ℕ
  tolerance_ms : ℚ

/-- The default `SwingConfig()`. -/
def defaultSwingConfig : SwingConfig := ⟨4, 10⟩

/-- `SwingAnalysis` dataclass. -/
structure SwingAnalysis where
  swing_percentage : ℚ
  swing_ratio : ℚ
  is_swung : Bool
  confidence : ℚ
  description : String
  deriving Repr

/-- `SwingAnalysis.__post_init__` default description from the
percentage, applied when no description is passed. -/
def default_description (p : ℚ) : String :=
  if p < 52 then "Straight (sin swing)"
  else if p < 58 then "Swing ligero"
  else if p < 64 then "Swing moderado"
  else "Shuffle/swing pesado"

/-- The pairing loop of `calculate_from_intervals`:
`for i in range(0, len(intervals) - 1, 2)` takes consecutive
non-overlapping pairs, drops a trailing unpaired interval and keeps
`max/(a+b)` only when `a + b > 0`. -/
def swing_ratios_of : List ℚ → List ℚ
  | i1 :: i2 :: rest =>
      let long_interval := max i1 i2
      let short_interval := min i1 i2
      let total := long_interval + short_interval
      if total > 0 then long_interval / total :: swing_ratios_of rest
      else swing_ratios_of rest
  | _ => []

/-- `SwingCalculator.calculate_from_intervals`.  `np.std` computes a
floating-point square root, which has no exact rational value; the
standard-deviation collaborator is therefore passed in as `std`
(it only feeds the `confidence` field). -/
def calculate_from_intervals (std : List ℚ → ℚ) (config : SwingConfig)
    (intervals : List ℚ) : SwingAnalysis :=
  if intervals.length < config.min_intervals then
    { swing_percentage := 50, swing_ratio := 1, is_swung := false,
      confidence := 0, description := "Datos insuficientes" }
  else
    let swing_ratios := swing_ratios_of intervals
    if swing_ratios.length = 0 then
      { swing_percentage := 50, swing_ratio := 1, is_swung := false,
        confidence := 0, description := "No se pudieron calcular ratios" }
    else
      let mean_ratio := swing_ratios.sum / (swing_ratios.length : ℚ)
      let swing_percentage := mean_ratio * 100
      let swing_ratio := if mean_ratio ≤ 1/2 then 1 else mean_ratio / (1 - mean_ratio)
      let is_swung := decide (swing_percentage > 52)
      let confidence := max 0 (1 - min 1 (std swing_ratios * 10))
      { swing_percentage := swing_percentage
        swing_ratio := swing_ratio
        is_swung := is_swung
        confidence := confidence
        description := default_description swing_percentage }

/-- Reaches the unguarded division of `calculate_from_intervals`: true
when the `mean_ratio / (1 - mean_ratio)` branch is taken with denominator
`1 - mean_ratio = 0`.  Mirrors the branch structure of the source. -/
def swing_ratio_division_by_zero (config : SwingConfig) (intervals : List ℚ) : Bool :=
  if intervals.length < config.min_intervals then false
  else
    let swing_ratios := swing_ratios_of intervals
    if swing_ratios.length = 0 then false
    else
      let mean_ratio := swing_ratios.sum / (swing_ratios.length : ℚ)
      decide (¬ mean_ratio ≤ 1/2 ∧ 1 - mean_ratio = 0)

/-! ## Hi-hat classifier (`src/classifiers/hihat_classifier.py`) -/

/-- `HiHatType` enum. -/
inductive HiHatType where
  | closed
  | open_hat
  | unknown
  deriving DecidableEq, Repr

/-- `HiHatFeatures` dataclass. -/
structure HiHatFeatures where
  decay_time : ℚ
  amp_100ms : ℚ
  temporal_centroid : ℚ
  spectral_centroid : ℚ
  spectral_bandwidth : ℚ
  spectral_flatness : ℚ

/-- `HiHatClassification` dataclass. -/
structure HiHatClassification where
  hit_type : HiHatType
  confidence : ℚ
  features : Option HiHatFeatures

/-- `HiHatThresholds` dataclass with its defaults. -/
structure HiHatThresholds where
  decay_open : ℚ
  decay_closed : ℚ
  weight_decay : ℚ
  weight_amp : ℚ
  weight_temporal : ℚ
  weight_spectral : ℚ

/-- The default `HiHatThresholds()`. -/
def defaultHiHatThresholds : HiHatThresholds :=
  { decay_open := 1/5, decay_closed := 1/10,
    weight_decay := 2/5, weight_amp := 1/4,
    weight_temporal := 1/5, weight_spectral := 3/20 }

/-- `HiHatClassifier._classify_from_features`. -/
def classify_from_features (th : HiHatThresholds) (features : HiHatFeatures) :
    HiHatType × ℚ :=
  if features.decay_time < th.decay_closed then
    let confidence := 8/10 + 2/10 * (1 - features.decay_time / th.decay_closed)
    (HiHatType.closed, min 1 confidence)
  else if features.decay_time > th.decay_open then
    let confidence :=
      8/10 + 2/10 * min 1 ((features.decay_time - th.decay_open) / th.decay_open)
    (HiHatType.open_hat, min 1 confidence)
  else
    let decay_normalized :=
      (features.decay_time - th.decay_closed) / (th.decay_open - th.decay_closed)
    let amp_normalized := min 1 (features.amp_100ms / (1/10))
    let centroid_normalized := min 1 (features.temporal_centroid / (15/100))
    let score := decay_normalized * th.weight_decay
               + amp_normalized * th.weight_amp
               + centroid_normalized * th.weight_temporal
               + features.spectral_flatness * th.weight_spectral
    if score > 1/2 then (HiHatType.open_hat, min (7/10) (1/2 + (score - 1/2)))
    else (HiHatType.closed, min (7/10) (1/2 + (1/2 - score)))

/-- `HiHatClassifier.classify`, over an already-extracted post-onset
segment.  The feature extraction (envelope smoothing, FFT-based spectral
descriptors) is the numeric collaborator `extract`. -/
def classify (extract : List ℚ → HiHatFeatures) (th : HiHatThresholds)
    (segment : List ℚ) : HiHatClassification :=
  if segment.length < 100 then
    { hit_type := HiHatType.unknown, confidence := 0, features := none }
  else
    let features := extract segment
    let r := classify_from_features th features
    { hit_type := r.1, confidence := r.2, features := some features }

/-! ## Grid model (`src/models/timing_data.py`, `src/converters/timing_converter.py`) -/

/-- `PPQ = 480`. -/
def PPQ : ℤ := 480

/-- `time_to_tick` from `src/models/timing_data.py`:
`beats = t * bpm / 60; return int(beats * ppq)` (Python `int` truncates). -/
def time_to_tick (time_seconds bpm : ℚ) (ppq : ℤ) : ℤ :=
  let beats := time_seconds * bpm / 60
  pyInt (beats * (ppq : ℚ))

/-- `tick_to_time` from `src/models/timing_data.py`. -/
def tick_to_time (tick : ℤ) (bpm : ℚ) (ppq : ℤ) : ℚ :=
  let beats : ℚ := (tick : ℚ) / (ppq : ℚ)
  beats * 60 / bpm

/-- `TimingConverter.ticks_per_step = ppq // 4` (Python floor division). -/
def ticks_per_step (ppq : ℤ) : ℤ := Int.fdiv ppq 4

/-- `TimingConverter.quantize_tick`: nearest step via Python `round`,
returning `(quantized_tick, deviation)`. -/
def quantize_tick (ppq tick : ℤ) : ℤ × ℤ :=
  let tps := ticks_per_step ppq
  let step_index := pyRound ((tick : ℚ) / (tps : ℚ))
  let quantized_tick := step_index * tps
  let deviation := tick - quantized_tick
  (quantized_tick, deviation)

/-! ## Claim-side definitions (stated from the specification's wording,
for comparison with the source embeddings above) -/

/-- Beat position as the specification words it: bucket
`round((t / beat_duration) mod 4) mod 4` with `beat_duration = 60/bpm`. -/
def beat_position_claim (bpm t : ℚ) : ℤ :=
  pyRound (qmod (t / (60 / bpm)) 4) % 4

open JamaicanStyle in
/-- The style decision exactly as the specification's claim words it:
only onsets before `16 * (60/bpm)` are considered; fewer than 2 kicks give
UNKNOWN; STEPPERS when every beat position 0-3 has at least one kick; else
ONE_DROP when the fraction of kicks on position 2 exceeds 0.6 and the
fraction on position 0 is below 0.2; else SKA/ROCKERS (split on
`bpm > 110`) when the combined fraction on positions 0 and 2 exceeds 0.7;
else UNKNOWN.  The decision depends on kicks and bpm only. -/
def detect_style_claim (kick_times : List ℚ) (bpm : ℚ) : JamaicanStyle :=
  let considered := kick_times.filter (fun t => t < 16 * (60 / bpm))
  if considered.length < 2 then unknown
  else
    let positions := considered.map (fun t => beat_position_claim bpm t)
    let total : ℚ := (positions.length : ℚ)
    if 0 < positions.count 0 ∧ 0 < positions.count 1 ∧
       0 < positions.count 2 ∧ 0 < positions.count 3 then steppers
    else if (positions.count 2 : ℚ) / total > 6/10 ∧
            (positions.count 0 : ℚ) / total < 2/10 then one_drop
    else if ((positions.count 0 : ℚ) + (positions.count 2 : ℚ)) / total > 7/10 then
      if bpm > 110 then ska else rockers
    else unknown

/-- Pair ratios as the claim words them: over consecutive non-overlapping
pairs, `max(a,b)/(a+b)`, a trailing unpaired interval ignored. -/
def pair_ratios_claim : List ℚ → List ℚ
  | a :: b :: rest => max a b / (a + b) :: pair_ratios_claim rest
  | _ => []

/-- Confidence as the claim words it:
`clamp(1 - |bpm - typical| / ((max - min)/2), 0.5, 1.0)`. -/
def clamped_confidence (r : StyleBPMRange) (bpm : ℚ) : ℚ :=
  max (1/2) (min 1 (1 - |bpm - r.typical_bpm| / ((r.max_bpm - r.min_bpm) / 2)))

/-- The uncertainty-zone weighted score as the claim words it:
`0.40 * normalized decay + 0.25 * normalized amp_100ms +
0.20 * normalized temporal_centroid + 0.15 * spectral_flatness`,
with the default thresholds' normalization ranges. -/
def hihat_score (f : HiHatFeatures) : ℚ :=
  2/5 * ((f.decay_time - 1/10) / (1/5 - 1/10))
  + 1/4 * min 1 (f.amp_100ms / (1/10))
  + 1/5 * min 1 (f.temporal_centroid / (15/100))
  + 3/20 * f.spectral_flatness

/-! ## Helper lemmas -/

theorem pyRound_intCast (n : ℤ) : pyRound (n : ℚ) = n := by
  unfold pyRound
  rw [Int.floor_intCast, sub_self, if_pos (by norm_num : (0:ℚ) < 1/2)]

theorem abs_pyRound_sub_le (x : ℚ) : |(pyRound x : ℚ) - x| ≤ 1/2 := by
  have h1 : (⌊x⌋ : ℚ) ≤ x := Int.floor_le x
  have h2 : x < ⌊x⌋ + 1 := Int.lt_floor_add_one x
  unfold pyRound
  split_ifs with ha hb hc
  · rw [abs_sub_comm, abs_of_nonneg (by linarith)]
    linarith
  · push_cast
    rw [abs_of_nonneg (by linarith)]
    linarith
  · rw [abs_sub_comm, abs_of_nonneg (by linarith)]
    linarith
  · push_cast
    rw [abs_of_nonneg (by linarith)]
    linarith

theorem suggestStep_conf_le (bpm : ℚ) (acc : JamaicanStyle × ℚ)
    (sr : JamaicanStyle × StyleBPMRange) : acc.2 ≤ (suggestStep bpm acc sr).2 := by
  unfold suggestStep
  split_ifs with h1 h2
  · exact le_of_lt h2
  · exact le_refl _
  · exact le_refl _

theorem suggestFold_conf_mono (bpm : ℚ) (L : List (JamaicanStyle × StyleBPMRange)) :
    ∀ acc : JamaicanStyle × ℚ, acc.2 ≤ (L.foldl (suggestStep bpm) acc).2 := by
  induction L with
  | nil => intro acc; exact le_refl _
  | cons x L ih =>
      intro acc
      rw [List.foldl_cons]
      exact le_trans (suggestStep_conf_le bpm acc x) (ih _)

theorem suggestFold_conf_ge (bpm : ℚ) (L : List (JamaicanStyle × StyleBPMRange)) :
    ∀ acc : JamaicanStyle × ℚ, ∀ sr ∈ L, (sr.2.min_bpm ≤ bpm ∧ bpm ≤ sr.2.max_bpm) →
      rangeConfidence sr.2 bpm ≤ (L.foldl (suggestStep bpm) acc).2 := by
  induction L with
  | nil => intro acc sr h; exact absurd h (List.not_mem_nil sr)
  | cons x L ih =>
      intro acc sr hmem hm
      rw [List.foldl_cons]
      rcases List.mem_cons.mp hmem with rfl | hmem'
      · have hstep : rangeConfidence sr.2 bpm ≤ (suggestStep bpm acc sr).2 := by
          unfold suggestStep
          rw [if_pos hm]
          split_ifs with h2
          · exact le_refl _
          · exact le_of_not_lt h2
        exact le_trans hstep (suggestFold_conf_mono bpm L _)
      · exact ih _ sr hmem' hm

theorem suggestFold_result (bpm : ℚ) (L : List (JamaicanStyle × StyleBPMRange)) :
    ∀ acc : JamaicanStyle × ℚ, L.foldl (suggestStep bpm) acc = acc ∨
      ∃ sr ∈ L, (sr.2.min_bpm ≤ bpm ∧ bpm ≤ sr.2.max_bpm) ∧
        L.foldl (suggestStep bpm) acc = (sr.1, rangeConfidence sr.2 bpm) := by
  induction L with
  | nil => intro acc; exact Or.inl rfl
  | cons x L ih =>
      intro acc
      rw [List.foldl_cons]
      rcases ih (suggestStep bpm acc x) with heq | ⟨sr, hmem, hm, heq⟩
      · rw [heq]
        unfold suggestStep
        split_ifs with h1 h2
        · exact Or.inr ⟨x, List.mem_cons_self x L, h1, rfl⟩
        · exact Or.inl rfl
        · exact Or.inl rfl
      · exact Or.inr ⟨sr, List.mem_cons_of_mem x hmem, hm, heq⟩

theorem suggestFold_no_match (bpm : ℚ) (L : List (JamaicanStyle × StyleBPMRange)) :
    ∀ acc : JamaicanStyle × ℚ,
      (∀ sr ∈ L, ¬(sr.2.min_bpm ≤ bpm ∧ bpm ≤ sr.2.max_bpm)) →
      L.foldl (suggestStep bpm) acc = acc := by
  induction L with
  | nil => intro acc _; rfl
  | cons x L ih =>
      intro acc hno
      rw [List.foldl_cons]
      have hx : suggestStep bpm acc x = acc := by
        unfold suggestStep
        rw [if_neg (hno x (List.mem_cons_self x L))]
      rw [hx]
      exact ih acc (fun sr h => hno sr (List.mem_cons_of_mem x h))

theorem rangeConfidence_eq_clamped (r : StyleBPMRange) (bpm : ℚ)
    (h : r.min_bpm < r.max_bpm) :
    rangeConfidence r bpm = clamped_confidence r bpm := by
  simp only [rangeConfidence, clamped_confidence]
  rw [if_pos (by linarith : (0:ℚ) < (r.max_bpm - r.min_bpm) / 2)]

/-! ## Claim theorems -/

/-- C10: the result of `detect_style_from_pattern` is independent of the
snare onsets: for a fixed kick-time list and bpm, any two snare-time
lists produce the same style (the snare beat-position counts are computed
but never consulted by the decision). -/
theorem detect_style_snare_independent (kick_times snares1 snares2 : List ℚ)
    (bpm : ℚ) :
    detect_style_from_pattern kick_times snares1 bpm =
      detect_style_from_pattern kick_times snares2 bpm := rfl

/-- C9: `quantize_tick` returns the multiple of `ticks_per_step = 120`
nearest to `tick`, with `deviation = tick - quantized`, and quantization
is idempotent: re-quantizing a quantized tick returns it with deviation 0. -/
theorem quantize_tick_nearest_idempotent (tick : ℤ) (_h : 0 ≤ tick) :
    (quantize_tick PPQ tick).1 % 120 = 0 ∧
    (quantize_tick PPQ tick).2 = tick - (quantize_tick PPQ tick).1 ∧
    (∀ m : ℤ, m % 120 = 0 → |tick - (quantize_tick PPQ tick).1| ≤ |tick - m|) ∧
    quantize_tick PPQ (quantize_tick PPQ tick).1 = ((quantize_tick PPQ tick).1, 0) := by
  have htps : ticks_per_step PPQ = 120 := rfl
  have h1 : quantize_tick PPQ tick =
      (pyRound ((tick : ℚ) / ((120 : ℤ) : ℚ)) * 120,
       tick - pyRound ((tick : ℚ) / ((120 : ℤ) : ℚ)) * 120) := rfl
  set r := pyRound ((tick : ℚ) / ((120 : ℤ) : ℚ)) with hr
  have habs : |tick - r * 120| ≤ 60 := by
    have hb := abs_pyRound_sub_le ((tick : ℚ) / ((120 : ℤ) : ℚ))
    rw [← hr] at hb
    have hcast : ((120 : ℤ) : ℚ) = (120 : ℚ) := by norm_num
    rw [hcast] at hb
    have hmul : |(r : ℚ) - (tick : ℚ) / 120| * 120 ≤ (1/2) * 120 :=
      mul_le_mul_of_nonneg_right hb (by norm_num)
    have heq : |(tick : ℚ) - (r : ℚ) * 120| = |(r : ℚ) - (tick : ℚ) / 120| * 120 := by
      rw [abs_sub_comm]
      rw [show |(r : ℚ) - (tick : ℚ) / 120| * 120 = |((r : ℚ) - (tick : ℚ) / 120) * 120| by
        rw [abs_mul, abs_of_nonneg (by norm_num : (0:ℚ) ≤ 120)]]
      congr 1
      ring
    have hq : |(tick : ℚ) - (r : ℚ) * 120| ≤ 60 := by rw [heq]; linarith
    have hcast2 : ((|tick - r * 120| : ℤ) : ℚ) = |(tick : ℚ) - (r : ℚ) * 120| := by
      push_cast
      ring_nf
    exact_mod_cast hcast2 ▸ hq
  refine ⟨?_, ?_, ?_, ?_⟩
  · rw [h1]
    exact Int.mul_emod_left r 120
  · rw [h1]
  · intro m hm
    rw [h1]
    by_cases hqm : r * 120 = m
    · rw [hqm]
    · have hdvd : (120 : ℤ) ∣ (r * 120 - m) :=
        dvd_sub (dvd_mul_left 120 r) (Int.dvd_of_emod_eq_zero hm)
      have hpos : 0 < |r * 120 - m| := abs_pos.mpr (sub_ne_zero.mpr hqm)
      have h120le : (120 : ℤ) ≤ |r * 120 - m| :=
        Int.le_of_dvd hpos ((dvd_abs _ _).mpr hdvd)
      have htri : |r * 120 - m| ≤ |r * 120 - tick| + |tick - m| := abs_sub_le _ _ _
      have hcomm : |r * 120 - tick| = |tick - r * 120| := abs_sub_comm _ _
      linarith
  · rw [h1]
    have harg : (((r * 120 : ℤ) : ℚ) / ((ticks_per_step PPQ : ℤ) : ℚ)) = ((r : ℤ) : ℚ) := by
      rw [htps]
      push_cast
      rw [mul_div_assoc]
      norm_num
    show (pyRound (((r * 120 : ℤ) : ℚ) / ((ticks_per_step PPQ : ℤ) : ℚ)) * ticks_per_step PPQ,
          r * 120 - pyRound (((r * 120 : ℤ) : ℚ) / ((ticks_per_step PPQ : ℤ) : ℚ)) *
            ticks_per_step PPQ) = (r * 120, 0)
    rw [harg, pyRound_intCast, htps]
    simp

/-- Closed witness for C9's theorem at tick 250. -/
theorem quantize_tick_nearest_idempotent_witness :
    (0 : ℤ) ≤ 250 ∧
    ((quantize_tick PPQ 250).1 % 120 = 0 ∧
     (quantize_tick PPQ 250).2 = 250 - (quantize_tick PPQ 250).1 ∧
     (∀ m : ℤ, m % 120 = 0 → |250 - (quantize_tick PPQ 250).1| ≤ |(250 : ℤ) - m|) ∧
     quantize_tick PPQ (quantize_tick PPQ 250).1 = ((quantize_tick PPQ 250).1, 0)) :=
  ⟨by norm_num, quantize_tick_nearest_idempotent 250 (by norm_num)⟩

/-- C8 counterexample: `time_to_tick` truncates (`int(...)`) rather than
rounding, so at `t = 3/960 s`, `bpm = 60` the code yields tick 1 while
the claim's formula `round(t * bpm / 60 * PPQ)` yields 2. -/
theorem time_to_tick_is_not_round :
    time_to_tick (3/960) 60 480 = 1 ∧
    pyRound ((3/960) * 60 / 60 * ((480 : ℤ) : ℚ)) = 2 ∧
    time_to_tick (3/960) 60 480 ≠ pyRound ((3/960) * 60 / 60 * ((480 : ℤ) : ℚ)) := by
  have harg : (3/960 : ℚ) * 60 / 60 * ((480 : ℤ) : ℚ) = 3/2 := by norm_num
  have hfloor : ⌊(3/2 : ℚ)⌋ = 1 := by
    rw [Int.floor_eq_iff]
    norm_num
  have h1 : time_to_tick (3/960) 60 480 = 1 := by
    show pyInt ((3/960 : ℚ) * 60 / 60 * ((480 : ℤ) : ℚ)) = 1
    rw [harg]
    unfold pyInt
    rw [if_pos (by norm_num : (0:ℚ) ≤ 3/2), hfloor]
  have h2 : pyRound ((3/960) * 60 / 60 * ((480 : ℤ) : ℚ)) = 2 := by
    rw [harg]
    unfold pyRound
    rw [hfloor]
    norm_num
  exact ⟨h1, h2, by rw [h1, h2]; decide⟩

/-- C8 (amended): `time_to_tick` truncates: for `t ≥ 0`, `bpm > 0` it
equals `⌊t * bpm / 60 * PPQ⌋`, and the conversions still round-trip
within one tick's time resolution:
`|tick_to_time (time_to_tick t bpm) bpm - t| < 60 / (bpm * PPQ)`. -/
theorem time_tick_roundtrip (t bpm : ℚ) (ht : 0 ≤ t) (hbpm : 0 < bpm) :
    time_to_tick t bpm PPQ = ⌊t * bpm / 60 * ((PPQ : ℤ) : ℚ)⌋ ∧
    |tick_to_time (time_to_tick t bpm PPQ) bpm PPQ - t| < 60 / (bpm * ((PPQ : ℤ) : ℚ)) := by
  have hPPQ : ((PPQ : ℤ) : ℚ) = 480 := by norm_num [PPQ]
  have hb : bpm ≠ 0 := ne_of_gt hbpm
  have hx0 : 0 ≤ t * bpm / 60 * ((PPQ : ℤ) : ℚ) := by
    rw [hPPQ]
    have : 0 ≤ t * bpm := mul_nonneg ht hbpm.le
    positivity
  have h1 : time_to_tick t bpm PPQ = ⌊t * bpm / 60 * ((PPQ : ℤ) : ℚ)⌋ := by
    unfold time_to_tick pyInt
    rw [if_pos hx0]
  refine ⟨h1, ?_⟩
  rw [h1]
  unfold tick_to_time
  rw [hPPQ]
  set x : ℚ := t * bpm / 60 * 480 with hxdef
  have hfl : (⌊x⌋ : ℚ) ≤ x := Int.floor_le x
  have hfl2 : x - 1 < ⌊x⌋ := Int.sub_one_lt_floor x
  have hc : (0 : ℚ) < 60 / (bpm * 480) := by positivity
  have hdiff : (⌊x⌋ : ℚ) / 480 * 60 / bpm - t = ((⌊x⌋ : ℚ) - x) * (60 / (bpm * 480)) := by
    rw [hxdef]
    field_simp
    ring
  rw [hdiff, abs_mul, abs_of_pos hc]
  calc |(⌊x⌋ : ℚ) - x| * (60 / (bpm * 480))
      < 1 * (60 / (bpm * 480)) := by
        apply mul_lt_mul_of_pos_right _ hc
        rw [abs_sub_comm, abs_of_nonneg (by linarith)]
        linarith
    _ = 60 / (bpm * 480) := by ring

/-- C4: `suggest_style_from_bpm` returns (UNKNOWN, 0) when no style's
range contains bpm; otherwise its confidence dominates the clamped
confidence `clamp(1 - |bpm - typical| / ((max - min)/2), 0.5, 1.0)` of
every containing style and the result is some containing style paired
with exactly its own clamped confidence (the fold keeps the first style
attaining the maximum); concretely 76 gives (ONE_DROP, 1) with
confidence > 0.5 and 500 gives (UNKNOWN, 0). -/
theorem suggest_style_from_bpm_spec (bpm : ℚ) (_hbpm : 0 < bpm) :
    ((∀ sr ∈ STYLE_BPM_RANGES, ¬(sr.2.min_bpm ≤ bpm ∧ bpm ≤ sr.2.max_bpm)) →
      suggest_style_from_bpm bpm = (JamaicanStyle.unknown, 0)) ∧
    (∀ sr ∈ STYLE_BPM_RANGES, (sr.2.min_bpm ≤ bpm ∧ bpm ≤ sr.2.max_bpm) →
      clamped_confidence sr.2 bpm ≤ (suggest_style_from_bpm bpm).2 ∧
      ∃ sr' ∈ STYLE_BPM_RANGES, (sr'.2.min_bpm ≤ bpm ∧ bpm ≤ sr'.2.max_bpm) ∧
        suggest_style_from_bpm bpm = (sr'.1, clamped_confidence sr'.2 bpm)) ∧
    (suggest_style_from_bpm 76 = (JamaicanStyle.one_drop, 1) ∧
     (1/2 : ℚ) < (suggest_style_from_bpm 76).2) ∧
    suggest_style_from_bpm 500 = (JamaicanStyle.unknown, 0) := by
  have hlt : ∀ sr ∈ STYLE_BPM_RANGES, sr.2.min_bpm < sr.2.max_bpm := by decide
  refine ⟨?_, ?_, ?_, ?_⟩
  · intro hno
    exact suggestFold_no_match bpm STYLE_BPM_RANGES (JamaicanStyle.unknown, 0) hno
  · intro sr hmem hm
    constructor
    · rw [← rangeConfidence_eq_clamped sr.2 bpm (hlt sr hmem)]
      exact suggestFold_conf_ge bpm STYLE_BPM_RANGES (JamaicanStyle.unknown, 0) sr hmem hm
    · rcases suggestFold_result bpm STYLE_BPM_RANGES (JamaicanStyle.unknown, 0)
        with heq | ⟨sr', hmem', hm', heq⟩
      · exfalso
        have h1 : rangeConfidence sr.2 bpm ≤
            (STYLE_BPM_RANGES.foldl (suggestStep bpm) (JamaicanStyle.unknown, 0)).2 :=
          suggestFold_conf_ge bpm STYLE_BPM_RANGES (JamaicanStyle.unknown, 0) sr hmem hm
        rw [heq] at h1
        have h2 : (1/2 : ℚ) ≤ rangeConfidence sr.2 bpm := le_max_left _ _
        have h3 : rangeConfidence sr.2 bpm ≤ 0 := h1
        linarith
      · refine ⟨sr', hmem', hm', ?_⟩
        rw [← rangeConfidence_eq_clamped sr'.2 bpm (hlt sr' hmem')]
        exact heq
  · constructor <;>
      norm_num [suggest_style_from_bpm, STYLE_BPM_RANGES, suggestStep,
        rangeConfidence, abs_sub_comm, abs_of_nonneg, abs_of_nonpos]
  · norm_num [suggest_style_from_bpm, STYLE_BPM_RANGES, suggestStep, rangeConfidence]

/-- Closed witness for C4's theorem: the concrete evaluations at 76 and
500, obtained by applying the theorem at `bpm = 76`. -/
theorem suggest_style_from_bpm_spec_witness :
    suggest_style_from_bpm 76 = (JamaicanStyle.one_drop, 1) ∧
    suggest_style_from_bpm 500 = (JamaicanStyle.unknown, 0) :=
  ⟨(suggest_style_from_bpm_spec 76 (by norm_num)).2.2.1.1,
   (suggest_style_from_bpm_spec 76 (by norm_num)).2.2.2⟩

open JamaicanStyle in
/-- C2: for `bpm_detected > 130`, `refine_bpm_with_pattern` keeps the BPM
("none") for a SKA pattern, halves it ("halved") for ONE_DROP, STEPPERS
or ROCKERS, and falls back to the BPM-only rule `suggest_bpm_correction`
for UNKNOWN; in particular 152 with SKA stays 152/"none" and 152 with
ONE_DROP becomes 76/"halved". -/
theorem refine_bpm_with_pattern_rules (bpm : ℚ) (base : BPMAnalysisResult)
    (h : bpm > 130) :
    ((refine_bpm_with_pattern bpm ska base).bpm_corrected = bpm ∧
     (refine_bpm_with_pattern bpm ska base).correction_type = "none") ∧
    ((refine_bpm_with_pattern bpm one_drop base).bpm_corrected = bpm / 2 ∧
     (refine_bpm_with_pattern bpm one_drop base).correction_type = "halved") ∧
    ((refine_bpm_with_pattern bpm steppers base).bpm_corrected = bpm / 2 ∧
     (refine_bpm_with_pattern bpm steppers base).correction_type = "halved") ∧
    ((refine_bpm_with_pattern bpm rockers base).bpm_corrected = bpm / 2 ∧
     (refine_bpm_with_pattern bpm rockers base).correction_type = "halved") ∧
    (((refine_bpm_with_pattern bpm unknown base).bpm_corrected,
      (refine_bpm_with_pattern bpm unknown base).correction_type) =
        suggest_bpm_correction bpm unknown) ∧
    ((refine_bpm_with_pattern 152 ska base).bpm_corrected = 152 ∧
     (refine_bpm_with_pattern 152 ska base).correction_type = "none") ∧
    ((refine_bpm_with_pattern 152 one_drop base).bpm_corrected = 76 ∧
     (refine_bpm_with_pattern 152 one_drop base).correction_type = "halved") := by
  refine ⟨?_, ?_, ?_, ?_, ?_, ?_, ?_⟩ <;>
    simp +decide [refine_bpm_with_pattern, h, suggest_bpm_correction, reggae_styles]
  norm_num

open JamaicanStyle in
/-- Closed witness for C2's theorem at `bpm = 152`. -/
theorem refine_bpm_with_pattern_rules_witness :
    (152 : ℚ) > 130 ∧
    (((refine_bpm_with_pattern 152 ska (mkBase 152)).bpm_corrected = 152 ∧
      (refine_bpm_with_pattern 152 ska (mkBase 152)).correction_type = "none") ∧
     ((refine_bpm_with_pattern 152 one_drop (mkBase 152)).bpm_corrected = 152 / 2 ∧
      (refine_bpm_with_pattern 152 one_drop (mkBase 152)).correction_type = "halved") ∧
     ((refine_bpm_with_pattern 152 steppers (mkBase 152)).bpm_corrected = 152 / 2 ∧
      (refine_bpm_with_pattern 152 steppers (mkBase 152)).correction_type = "halved") ∧
     ((refine_bpm_with_pattern 152 rockers (mkBase 152)).bpm_corrected = 152 / 2 ∧
      (refine_bpm_with_pattern 152 rockers (mkBase 152)).correction_type = "halved") ∧
     (((refine_bpm_with_pattern 152 unknown (mkBase 152)).bpm_corrected,
       (refine_bpm_with_pattern 152 unknown (mkBase 152)).correction_type) =
         suggest_bpm_correction 152 unknown) ∧
     ((refine_bpm_with_pattern 152 ska (mkBase 152)).bpm_corrected = 152 ∧
      (refine_bpm_with_pattern 152 ska (mkBase 152)).correction_type = "none") ∧
     ((refine_bpm_with_pattern 152 one_drop (mkBase 152)).bpm_corrected = 76 ∧
      (refine_bpm_with_pattern 152 one_drop (mkBase 152)).correction_type = "halved")) :=
  ⟨by norm_num, refine_bpm_with_pattern_rules 152 (mkBase 152) (by norm_num)⟩

/-- C3 counterexample: a `roots_reggae` hint with `bpm_detected = 152 > 130`
is NOT halved by `_apply_style_hint_correction` (its `slow_styles` set
contains `rocksteady` but not `roots_reggae`): the result keeps
`bpm_corrected = 152` with `correction_type = "none"`, refuting the
claimed 76/"halved". -/
theorem style_hint_roots_reggae_not_halved :
    (apply_style_hint_correction (mkBase 152) JamaicanStyle.roots_reggae).bpm_corrected = 152 ∧
    (apply_style_hint_correction (mkBase 152) JamaicanStyle.roots_reggae).correction_type = "none" ∧
    ¬((apply_style_hint_correction (mkBase 152) JamaicanStyle.roots_reggae).bpm_corrected = 152 / 2 ∧
      (apply_style_hint_correction (mkBase 152) JamaicanStyle.roots_reggae).correction_type = "halved") := by
  refine ⟨?_, ?_, ?_⟩ <;>
    simp +decide [apply_style_hint_correction, mkBase, slow_styles]

open JamaicanStyle in
/-- C3 (amended): the styles halved on a user hint are
`{one_drop, rockers, steppers, dub, rocksteady}` (not `roots_reggae`);
for such a hint with `bpm_detected > 130` the result is halved with
`correction_type = "halved"`, a `ska` hint is never corrected
(`correction_type = "none"`), and in both cases confidence is exactly 0.9. -/
theorem apply_style_hint_correction_rules (result : BPMAnalysisResult)
    (hint : JamaicanStyle) :
    (hint ∈ slow_styles → result.bpm_detected > 130 →
      (apply_style_hint_correction result hint).bpm_corrected = result.bpm_detected / 2 ∧
      (apply_style_hint_correction result hint).correction_type = "halved" ∧
      (apply_style_hint_correction result hint).confidence = 9/10) ∧
    (hint = ska →
      (apply_style_hint_correction result hint).bpm_corrected = result.bpm_detected ∧
      (apply_style_hint_correction result hint).correction_type = "none" ∧
      (apply_style_hint_correction result hint).confidence = 9/10) := by
  constructor
  · intro hmem hbpm
    simp [apply_style_hint_correction, hmem, hbpm]
  · intro hska
    subst hska
    have hns : ska ∉ slow_styles := by decide
    simp [apply_style_hint_correction, hns]

open JamaicanStyle in
/-- Closed witness for C3's amended theorem at hints `one_drop` and `ska`
with `bpm_detected = 152`. -/
theorem apply_style_hint_correction_rules_witness :
    ((apply_style_hint_correction (mkBase 152) one_drop).bpm_corrected = 152 / 2 ∧
     (apply_style_hint_correction (mkBase 152) one_drop).correction_type = "halved" ∧
     (apply_style_hint_correction (mkBase 152) one_drop).confidence = 9/10) ∧
    ((apply_style_hint_correction (mkBase 152) ska).bpm_corrected = 152 ∧
     (apply_style_hint_correction (mkBase 152) ska).correction_type = "none" ∧
     (apply_style_hint_correction (mkBase 152) ska).confidence = 9/10) :=
  ⟨(apply_style_hint_correction_rules (mkBase 152) one_drop).1 (by decide)
      (by norm_num [mkBase]),
   (apply_style_hint_correction_rules (mkBase 152) ska).2 rfl⟩

theorem swing_ratios_of_pos : ∀ (l : List ℚ), (∀ x ∈ l, 0 < x) →
    swing_ratios_of l = pair_ratios_claim l
  | [], _ => rfl
  | [_], _ => rfl
  | a :: b :: rest, h => by
      have ha : 0 < a := h a (by simp)
      have hb : 0 < b := h b (by simp)
      have htot : max a b + min a b > 0 := by
        rw [max_add_min]
        linarith
      simp only [swing_ratios_of, pair_ratios_claim]
      rw [if_pos htot, max_add_min]
      rw [swing_ratios_of_pos rest (fun x hx => h x (by simp [hx]))]

theorem pair_ratios_claim_ne_nil (a b : ℚ) (rest : List ℚ) :
    pair_ratios_claim (a :: b :: rest) ≠ [] := by
  simp [pair_ratios_claim]

/-- Unfolding of `calculate_from_intervals` on its main branch. -/
theorem calculate_from_intervals_main (std : List ℚ → ℚ) (config : SwingConfig)
    (intervals : List ℚ) (h1 : ¬ intervals.length < config.min_intervals)
    (h2 : swing_ratios_of intervals ≠ []) :
    calculate_from_intervals std config intervals =
      { swing_percentage :=
          (swing_ratios_of intervals).sum / ((swing_ratios_of intervals).length : ℚ) * 100,
        swing_ratio :=
          if (swing_ratios_of intervals).sum / ((swing_ratios_of intervals).length : ℚ) ≤ 1/2
          then 1
          else ((swing_ratios_of intervals).sum / ((swing_ratios_of intervals).length : ℚ)) /
               (1 - (swing_ratios_of intervals).sum / ((swing_ratios_of intervals).length : ℚ)),
        is_swung :=
          decide ((swing_ratios_of intervals).sum / ((swing_ratios_of intervals).length : ℚ)
            * 100 > 52),
        confidence := max 0 (1 - min 1 (std (swing_ratios_of intervals) * 10)),
        description := default_description
          ((swing_ratios_of intervals).sum / ((swing_ratios_of intervals).length : ℚ) * 100) } := by
  simp only [calculate_from_intervals]
  rw [if_neg h1, if_neg (fun h => h2 (List.length_eq_zero.mp h))]

/-- C5: with fewer than `min_intervals` intervals the calculator returns
the neutral result (50%, ratio 1, not swung, confidence 0) without
raising; with at least 4 positive intervals (default config) the swing
percentage is 100 times the mean of the non-overlapping pair ratios
`max(a,b)/(a+b)` (trailing interval ignored), `is_swung` holds exactly
when that percentage exceeds 52, and the swing ratio is 1 for mean ≤ 1/2
and `mean/(1-mean)` otherwise; eight equal intervals of 1/4 s give 50%
and not swung. -/
theorem calculate_from_intervals_spec (std : List ℚ → ℚ) (config : SwingConfig)
    (intervals : List ℚ) :
    (intervals.length < config.min_intervals →
      calculate_from_intervals std config intervals =
        { swing_percentage := 50, swing_ratio := 1, is_swung := false,
          confidence := 0, description := "Datos insuficientes" }) ∧
    ((∀ x ∈ intervals, 0 < x) → 4 ≤ intervals.length →
      (calculate_from_intervals std defaultSwingConfig intervals).swing_percentage =
        100 * ((pair_ratios_claim intervals).sum / ((pair_ratios_claim intervals).length : ℚ)) ∧
      ((calculate_from_intervals std defaultSwingConfig intervals).is_swung = true ↔
        (calculate_from_intervals std defaultSwingConfig intervals).swing_percentage > 52) ∧
      (calculate_from_intervals std defaultSwingConfig intervals).swing_ratio =
        (if (pair_ratios_claim intervals).sum / ((pair_ratios_claim intervals).length : ℚ) ≤ 1/2
         then 1
         else ((pair_ratios_claim intervals).sum / ((pair_ratios_claim intervals).length : ℚ)) /
              (1 - (pair_ratios_claim intervals).sum / ((pair_ratios_claim intervals).length : ℚ)))) ∧
    ((calculate_from_intervals std defaultSwingConfig
        [1/4, 1/4, 1/4, 1/4, 1/4, 1/4, 1/4, 1/4]).swing_percentage = 50 ∧
     (calculate_from_intervals std defaultSwingConfig
        [1/4, 1/4, 1/4, 1/4, 1/4, 1/4, 1/4, 1/4]).is_swung = false) := by
  refine ⟨?_, ?_, ?_⟩
  · intro hlen
    simp only [calculate_from_intervals]
    rw [if_pos hlen]
  · intro hpos hlen
    have hne : swing_ratios_of intervals ≠ [] := by
      rw [swing_ratios_of_pos intervals hpos]
      cases intervals with
      | nil => simp at hlen
      | cons a t =>
          cases t with
          | nil => simp at hlen
          | cons b rest => exact pair_ratios_claim_ne_nil a b rest
    have hlen' : ¬ intervals.length < defaultSwingConfig.min_intervals := by
      simp only [defaultSwingConfig]
      omega
    rw [calculate_from_intervals_main std defaultSwingConfig intervals hlen' hne,
        swing_ratios_of_pos intervals hpos]
    refine ⟨by ring, ?_, rfl⟩
    simp only [decide_eq_true_eq]
  · have hsr : swing_ratios_of [1/4, 1/4, 1/4, 1/4, 1/4, 1/4, 1/4, 1/4] =
        ([1/2, 1/2, 1/2, 1/2] : List ℚ) := by
      norm_num [swing_ratios_of]
    have hlen' : ¬ ([1/4, 1/4, 1/4, 1/4, 1/4, 1/4, 1/4, 1/4] : List ℚ).length <
        defaultSwingConfig.min_intervals := by
      simp [defaultSwingConfig]
    have hne : swing_ratios_of [1/4, 1/4, 1/4, 1/4, 1/4, 1/4, 1/4, 1/4] ≠ [] := by
      rw [hsr]
      simp
    rw [calculate_from_intervals_main std defaultSwingConfig _ hlen' hne, hsr]
    norm_num

/-- Closed witness for C5's theorem: both branches at concrete inputs,
obtained by applying the theorem. -/
theorem calculate_from_intervals_spec_witness :
    (calculate_from_intervals (fun _ => 0) defaultSwingConfig [1/4, 1/4] =
      { swing_percentage := 50, swing_ratio := 1, is_swung := false,
        confidence := 0, description := "Datos insuficientes" }) ∧
    (calculate_from_intervals (fun _ => 0) defaultSwingConfig
        [1/4, 1/4, 1/4, 1/4, 1/4, 1/4, 1/4, 1/4]).swing_percentage = 50 :=
  ⟨(calculate_from_intervals_spec (fun _ => 0) defaultSwingConfig [1/4, 1/4]).1
      (by norm_num [defaultSwingConfig]),
   (calculate_from_intervals_spec (fun _ => 0) defaultSwingConfig []).2.2.1⟩

/-- C6 refutation evidence: with intervals `[0.5, 0, 0.5, 0]` (length 4,
all non-negative) every counted pair ratio is 1.0, the mean ratio is 1,
and the `swing_ratio = mean/(1 - mean)` branch is reached with its
denominator `1 - mean_ratio` equal to zero: the division is NOT guarded.
(The swing percentage of 100 confirms the mean ratio is 1 there.) -/
theorem swing_ratio_division_by_zero_reached :
    swing_ratio_division_by_zero defaultSwingConfig [1/2, 0, 1/2, 0] = true ∧
    (calculate_from_intervals (fun _ => 0) defaultSwingConfig
        [1/2, 0, 1/2, 0]).swing_percentage = 100 := by
  have hsr : swing_ratios_of [1/2, 0, 1/2, 0] = ([1, 1] : List ℚ) := by
    norm_num [swing_ratios_of]
  constructor
  · simp only [swing_ratio_division_by_zero, hsr]
    norm_num [defaultSwingConfig]
  · have hlen' : ¬ ([1/2, 0, 1/2, 0] : List ℚ).length <
        defaultSwingConfig.min_intervals := by
      simp [defaultSwingConfig]
    have hne : swing_ratios_of [1/2, 0, 1/2, 0] ≠ [] := by
      rw [hsr]
      simp
    rw [calculate_from_intervals_main (fun _ => 0) defaultSwingConfig _ hlen' hne, hsr]
    norm_num

open HiHatType in
/-- C7: `classify` returns (UNKNOWN, 0) for a post-onset segment of
fewer than 100 samples; otherwise, over the extracted features:
decay < 0.1 s gives CLOSED with confidence `min 1 (0.8 + 0.2*(1 - d/0.1))`,
at least 0.8; decay > 0.2 s gives OPEN with confidence
`min 1 (0.8 + 0.2*min 1 ((d-0.2)/0.2))`, at least 0.8; and for decay in
[0.1, 0.2] the weighted score decides (OPEN iff score > 0.5) with
confidence `min 0.7 (0.5 + |score - 0.5|)`, never exceeding 0.7. -/
theorem hihat_classify_spec (extract : List ℚ → HiHatFeatures)
    (segment : List ℚ) (f : HiHatFeatures) :
    (segment.length < 100 →
      classify extract defaultHiHatThresholds segment =
        { hit_type := unknown, confidence := 0, features := none }) ∧
    (0 ≤ f.decay_time → f.decay_time < 1/10 →
      classify_from_features defaultHiHatThresholds f =
        (closed, min 1 (8/10 + 2/10 * (1 - f.decay_time / (1/10)))) ∧
      8/10 ≤ (classify_from_features defaultHiHatThresholds f).2) ∧
    (f.decay_time > 1/5 →
      classify_from_features defaultHiHatThresholds f =
        (open_hat, min 1 (8/10 + 2/10 * min 1 ((f.decay_time - 1/5) / (1/5)))) ∧
      8/10 ≤ (classify_from_features defaultHiHatThresholds f).2) ∧
    (1/10 ≤ f.decay_time → f.decay_time ≤ 1/5 →
      classify_from_features defaultHiHatThresholds f =
        (if hihat_score f > 1/2 then open_hat else closed,
         min (7/10) (1/2 + |hihat_score f - 1/2|)) ∧
      (classify_from_features defaultHiHatThresholds f).2 ≤ 7/10) := by
  refine ⟨?_, ?_, ?_, ?_⟩
  · intro hlen
    simp only [classify]
    rw [if_pos hlen]
  · intro h0 hlt
    have heq : classify_from_features defaultHiHatThresholds f =
        (closed, min 1 (8/10 + 2/10 * (1 - f.decay_time / (1/10)))) := by
      simp only [classify_from_features, defaultHiHatThresholds]
      rw [if_pos hlt]
    refine ⟨heq, ?_⟩
    rw [heq]
    have h10 : f.decay_time / (1/10) = 10 * f.decay_time := by ring
    have hd1 : 10 * f.decay_time ≤ 1 := by linarith
    have hnn : (0:ℚ) ≤ 2/10 * (1 - 10 * f.decay_time) :=
      mul_nonneg (by norm_num) (by linarith)
    have hle : (8/10 : ℚ) ≤ 8/10 + 2/10 * (1 - f.decay_time / (1/10)) := by
      rw [h10]
      linarith
    exact le_min (by norm_num) hle
  · intro hgt
    have heq : classify_from_features defaultHiHatThresholds f =
        (open_hat, min 1 (8/10 + 2/10 * min 1 ((f.decay_time - 1/5) / (1/5)))) := by
      simp only [classify_from_features, defaultHiHatThresholds]
      rw [if_neg (by linarith : ¬ f.decay_time < 1/10), if_pos hgt]
    refine ⟨heq, ?_⟩
    rw [heq]
    have h5 : (f.decay_time - 1/5) / (1/5) = 5 * (f.decay_time - 1/5) := by ring
    have hnn : (0:ℚ) ≤ min 1 ((f.decay_time - 1/5) / (1/5)) := by
      rw [h5]
      exact le_min (by norm_num) (by linarith)
    have hle : (8/10 : ℚ) ≤ 8/10 + 2/10 * min 1 ((f.decay_time - 1/5) / (1/5)) := by
      nlinarith
    exact le_min (by norm_num) hle
  · intro hge hle
    have hs : (f.decay_time - 1/10) / (1/5 - 1/10) * (2/5)
        + min 1 (f.amp_100ms / (1/10)) * (1/4)
        + min 1 (f.temporal_centroid / (15/100)) * (1/5)
        + f.spectral_flatness * (3/20) = hihat_score f := by
      unfold hihat_score
      ring
    have heq : classify_from_features defaultHiHatThresholds f =
        (if hihat_score f > 1/2 then open_hat else closed,
         min (7/10) (1/2 + |hihat_score f - 1/2|)) := by
      simp only [classify_from_features, defaultHiHatThresholds]
      rw [if_neg (not_lt.mpr hge), if_neg (not_lt.mpr hle), hs]
      by_cases hcase : hihat_score f > 1/2
      · rw [if_pos hcase, if_pos hcase,
            abs_of_nonneg (by linarith : (0:ℚ) ≤ hihat_score f - 1/2)]
      · rw [if_neg hcase, if_neg hcase,
            abs_of_nonpos (by linarith : hihat_score f - 1/2 ≤ 0)]
        norm_num
    refine ⟨heq, ?_⟩
    rw [heq]
    exact min_le_left _ _

open HiHatType in
/-- Closed witness for C7's theorem: a 10-sample segment is UNKNOWN, a
0.05 s decay is CLOSED at confidence 0.9, a 0.5 s decay is OPEN at
confidence 1, and a 0.15 s decay stays in the capped uncertainty zone. -/
theorem hihat_classify_spec_witness :
    (classify (fun _ => ⟨0, 0, 0, 0, 0, 0⟩) defaultHiHatThresholds
        [1, 1, 1, 1, 1, 1, 1, 1, 1, 1] =
      { hit_type := unknown, confidence := 0, features := none }) ∧
    (classify_from_features defaultHiHatThresholds ⟨1/20, 0, 0, 0, 0, 0⟩ =
        (closed, min 1 (8/10 + 2/10 * (1 - (1/20 : ℚ) / (1/10)))) ∧
      8/10 ≤ (classify_from_features defaultHiHatThresholds ⟨1/20, 0, 0, 0, 0, 0⟩).2) ∧
    (classify_from_features defaultHiHatThresholds ⟨1/2, 0, 0, 0, 0, 0⟩ =
        (open_hat, min 1 (8/10 + 2/10 * min 1 (((1/2 : ℚ) - 1/5) / (1/5)))) ∧
      8/10 ≤ (classify_from_features defaultHiHatThresholds ⟨1/2, 0, 0, 0, 0, 0⟩).2) ∧
    ((classify_from_features defaultHiHatThresholds ⟨3/20, 0, 0, 0, 0, 0⟩).2 ≤ 7/10) :=
  ⟨(hihat_classify_spec (fun _ => ⟨0, 0, 0, 0, 0, 0⟩)
      [1, 1, 1, 1, 1, 1, 1, 1, 1, 1] ⟨0, 0, 0, 0, 0, 0⟩).1 (by norm_num),
   (hihat_classify_spec (fun _ => ⟨0, 0, 0, 0, 0, 0⟩) [] ⟨1/20, 0, 0, 0, 0, 0⟩).2.1
      (by norm_num) (by norm_num),
   (hihat_classify_spec (fun _ => ⟨0, 0, 0, 0, 0, 0⟩) [] ⟨1/2, 0, 0, 0, 0, 0⟩).2.2.1
      (by norm_num),
   ((hihat_classify_spec (fun _ => ⟨0, 0, 0, 0, 0, 0⟩) [] ⟨3/20, 0, 0, 0, 0, 0⟩).2.2.2
      (by norm_num) (by norm_num)).2⟩

/-- C1: `detect_style_from_pattern` decides exactly as the claim states:
restricted to onsets before `16 * (60/bpm)`, fewer than 2 in-range kicks
give UNKNOWN, otherwise the kick beat-position counts (bucketed by
`round((t/beat_duration) mod 4) mod 4`; the 15% tolerance is computed but
never used) decide STEPPERS / ONE_DROP / SKA-vs-ROCKERS (on `bpm > 110`)
/ UNKNOWN, in that order, with the claimed fraction thresholds. -/
theorem detect_style_from_pattern_spec (kick_times snare_times : List ℚ)
    (bpm : ℚ) (_hbpm : 0 < bpm) :
    detect_style_from_pattern kick_times snare_times bpm =
      detect_style_claim kick_times bpm := by
  simp only [detect_style_from_pattern, detect_style_claim, get_beat_positions,
    beat_position_claim]
  rw [show (60 / bpm * 16 : ℚ) = 16 * (60 / bpm) from by ring]
  by_cases hlen :
      (kick_times.filter fun t => decide (t < 16 * (60 / bpm))).length < 2
  · simp [hlen]
  · rw [if_neg hlen, if_neg hlen]
    have hnz : ¬ ((kick_times.filter fun t => decide (t < 16 * (60 / bpm))).map
        (fun t => pyRound (qmod (t / (60 / bpm)) 4) % 4)).length = 0 := by
      rw [List.length_map]
      omega
    rw [if_neg hnz]
    simp only [List.all_cons, List.all_nil, Bool.and_eq_true, decide_eq_true_eq,
      and_true]

/-- Closed witness for C1's theorem at kicks `[0, 1]`, empty snares,
`bpm = 120`. -/
theorem detect_style_from_pattern_spec_witness :
    (0:ℚ) < 120 ∧
    detect_style_from_pattern [0, 1] [] 120 = detect_style_claim [0, 1] 120 :=
  ⟨by norm_num, detect_style_from_pattern_spec [0, 1] [] 120 (by norm_num)⟩

/-- Closed witness for C8's amended theorem at `t = 1`, `bpm = 120`. -/
theorem time_tick_roundtrip_witness :
    (0 : ℚ) ≤ 1 ∧ (0 : ℚ) < 120 ∧
    (time_to_tick 1 120 PPQ = ⌊(1 : ℚ) * 120 / 60 * ((PPQ : ℤ) : ℚ)⌋ ∧
     |tick_to_time (time_to_tick 1 120 PPQ) 120 PPQ - 1| < 60 / (120 * ((PPQ : ℤ) : ℚ))) :=
  ⟨by norm_num, by norm_num, time_tick_roundtrip 1 120 (by norm_num) (by norm_num)⟩

end Groove
